import Mathlib

/-!
Verification of the PF400 robot client (`robot_client/pf400_client.py`).

The Python class `PF400` keeps three pieces of mutable data: the
`location_dictionary` (symbolic name → list of joint values), the default
`motion_profile` list, and the per-command TCP socket traffic.  The shallow
embedding below models the class state as an explicit record threaded through
every operation, and models the network as a `Transport`: a function from the
index of a connect-send-receive cycle to that cycle's outcome.  An uncaught
Python exception is modelled by `Except.error` carrying a `PyExn`
constructor; a caught (logged-only) exception leaves the operation on its
normal return path, exactly as in the source.
-/

namespace PF400

/-- Python exceptions that the client code can raise.  `socketError` stands
for `socket.error`, the only class the `except` clauses catch; the others
escape those clauses. -/
inductive PyExn where
  | socketError
  | attributeError
  | nameError
  | keyError
  | indexError
  | valueError
  | exception (msg : String)
deriving DecidableEq

instance {ε α : Type} [DecidableEq ε] [DecidableEq α] : DecidableEq (Except ε α)
  | .ok a, .ok b =>
    if h : a = b then .isTrue (congrArg Except.ok h)
    else .isFalse (fun hc => h (Except.ok.inj hc))
  | .ok _, .error _ => .isFalse (fun hc => Except.noConfusion hc)
  | .error _, .ok _ => .isFalse (fun hc => Except.noConfusion hc)
  | .error e, .error f =>
    if h : e = f then .isTrue (congrArg Except.error h)
    else .isFalse (fun hc => h (Except.error.inj hc))

/-- Outcome of one connect-send-receive cycle of `connect_robot` followed by
`send`/`recv`:
* `reply m` — everything succeeded and `recv` returned `m`;
* `createFail` — `socket.socket(...)` raised `socket.error`; `connect_robot`
  catches it, logs, and falls off the end returning `None`, so the caller's
  `PF400.send(...)` raises `AttributeError`;
* `connectFail` — `PF400.connect(...)` raised `socket.error` in the `else`
  branch of `connect_robot`, outside any `try`, so it propagates;
* `sendFail` — `send` raised `socket.error` (nothing went over the wire);
* `recvFail` — `send` succeeded but `recv` raised `socket.error`. -/
inductive CycleOutcome where
  | reply (msg : String)
  | createFail
  | connectFail
  | sendFail
  | recvFail
deriving DecidableEq

/-- The network model: outcome of the k-th connect-send-receive cycle. -/
abbrev Transport := Nat → CycleOutcome

/-- The mutable state of a `PF400` object, plus observation fields for the
traffic: `sent` records every command that reached a successful `send`,
`sockets_opened`/`sockets_closed` count sockets successfully created and
sockets on which `close()` was called, and `cycles` indexes the transport. -/
structure RobotState where
  location_dictionary : List (String × List Int)
  motion_profile : List (List (String × Int))
  sent : List String
  sockets_opened : Nat
  sockets_closed : Nat
  cycles : Nat
deriving DecidableEq

/-- What one cycle did: whether a socket object was created, whether
`close()` ran on it, whether the command reached the wire, and the value the
surrounding `try`/`except socket.error`/`else` pattern produces (`.ok none`
when the exception was caught and logged, `.error` when it escapes). -/
structure CycleStep where
  opened : Bool
  closed : Bool
  wire_sent : Bool
  result : Except PyExn (Option String)
deriving DecidableEq

/-- Semantics of the idiom shared by every command-issuing method:
`PF400 = self.connect_robot()` then `try: send; recv except socket.error:
log else: disconnect_robot(PF400)`.  Note that `disconnect_robot` (the only
`close()`) sits in the `else` branch, so it runs only when `send` and `recv`
both succeed. -/
def run_cycle (o : CycleOutcome) : CycleStep :=
  match o with
  | .reply m => ⟨true, true, true, .ok (some m)⟩
  | .createFail => ⟨false, false, false, .error .attributeError⟩
  | .connectFail => ⟨true, false, false, .error .socketError⟩
  | .sendFail => ⟨true, false, false, .ok none⟩
  | .recvFail => ⟨true, false, true, .ok none⟩

/-- Fold a cycle's observations into the state (the command `cmd` is the
line the cycle tried to send). -/
def applyStep (st : RobotState) (step : CycleStep) (cmd : String) : RobotState :=
  { st with
    sent := if step.wire_sent then st.sent ++ [cmd] else st.sent
    sockets_opened := st.sockets_opened + (if step.opened then 1 else 0)
    sockets_closed := st.sockets_closed + (if step.closed then 1 else 0)
    cycles := st.cycles + 1 }

/-- Python `s.split(" ")` (explicit single-space separator: adjacent
separators and an empty string produce empty fields), written on the
character list so that it evaluates by kernel reduction. -/
def splitSpaceAux : List Char → List Char → List String
  | [], acc => [String.mk acc.reverse]
  | c :: rest, acc =>
    if c = ' ' then String.mk acc.reverse :: splitSpaceAux rest []
    else splitSpaceAux rest (c :: acc)

/-- Python `location.split(" ")`. -/
def pySplitSpace (s : String) : List String :=
  splitSpaceAux s.data []

/-- Accumulate decimal digits; `none` as soon as a non-digit appears. -/
def digitsAux : List Char → Nat → Option Nat
  | [], acc => some acc
  | c :: rest, acc =>
    if c.isDigit then digitsAux rest (acc * 10 + (c.toNat - 48))
    else none

/-- Python `int(s)` on the plain decimal strings the robot replies with
(optional leading `-`, then digits); anything else raises `ValueError`.
The whitespace/underscore forms Python also accepts never occur here. -/
def pyInt (s : String) : Except PyExn Int :=
  match s.data with
  | [] => .error .valueError
  | c :: rest =>
    if c = '-' then
      match rest with
      | [] => .error .valueError
      | _ =>
        match digitsAux rest 0 with
        | some n => .ok (-(n : Int))
        | none => .error .valueError
    else
      match digitsAux (c :: rest) 0 with
      | some n => .ok (n : Int)
      | none => .error .valueError

/-- Python `list(map(int, parts))`: left to right, the first `ValueError`
propagates. -/
def parse_coordinates : List String → Except PyExn (List Int)
  | [] => .ok []
  | s :: rest => do
    let n ← pyInt s
    let ns ← parse_coordinates rest
    return (n :: ns)

/-- Python `s.upper()`. -/
def pyUpper (s : String) : String :=
  String.mk (s.data.map Char.toUpper)

/-- Python dict lookup `d[k]` as used on `self.location_dictionary`
(`none` models a `KeyError`). -/
def dict_get (d : List (String × List Int)) (k : String) : Option (List Int) :=
  List.lookup k d

/-- Python dict item assignment `d[k] = v` for an existing key. -/
def dict_set (d : List (String × List Int)) (k : String) (v : List Int) :
    List (String × List Int) :=
  d.map (fun kv => if kv.1 == k then (kv.1, v) else kv)

/-- Python list indexing `l[i]` (`IndexError` when out of range). -/
def list_index {α : Type} (l : List α) (i : Nat) : Except PyExn α :=
  match l.get? i with
  | some a => .ok a
  | none => .error .indexError

/-! ## `set_move_command` (source lines 290–313) -/

/-- The loop
`for count, location in enumerate(self.location_dictionary[robot_location])`
of `set_move_command`, with the accumulated command string and the running
`count` made explicit.  The `grab` test comes before the `release` test,
exactly as in the source. -/
def move_loop (grab release : Bool) (count : Nat) (joints : List Int)
    (robot_command : String) : String :=
  match joints with
  | [] => robot_command
  | location :: rest =>
    if grab == true && count == 4 then
      move_loop grab release (count + 1) rest (robot_command ++ " " ++ "120.0")
    else if release == true && count == 4 then
      move_loop grab release (count + 1) rest (robot_command ++ " " ++ "127.0")
    else
      move_loop grab release (count + 1) rest (robot_command ++ " " ++ toString location)

/-- `set_move_command`: chooses the `MoveJ` verb from the profile (raising a
generic `Exception` outside 1–3), looks the location up in the dictionary
(`KeyError` when absent), runs the argument loop and appends the newline. -/
def set_move_command (st : RobotState) (robot_location : String) (profile : Nat)
    (grab release : Bool) : Except PyExn String :=
  let verb : Option String :=
    if profile == 1 then some "MoveJ 1"
    else if profile == 2 then some "MoveJ 2"
    else if profile == 3 then some "MoveJ 3"
    else none
  match verb with
  | none => .error (.exception "Please enter a valid motion profiile! 1 for slower movement, 2 for faster movement profile, 3 for modified profile")
  | some robot_command =>
    match dict_get st.location_dictionary robot_location with
    | none => .error .keyError
    | some joints => .ok (move_loop grab release 0 joints robot_command ++ "\n")

/-- The single argument the loop of `set_move_command` appends at position
`count` (without the leading space). -/
def moveJArg (grab release : Bool) (count : Nat) (location : Int) : String :=
  if grab == true && count == 4 then "120.0"
  else if release == true && count == 4 then "127.0"
  else toString location

/-- The arguments appended for the joint list starting at index `count`. -/
def moveJArgsFrom (grab release : Bool) (count : Nat) : List Int → List String
  | [] => []
  | location :: rest =>
    moveJArg grab release count location :: moveJArgsFrom grab release (count + 1) rest

/-- The full argument list of one `MoveJ` command. -/
def moveJArgs (grab release : Bool) (joints : List Int) : List String :=
  moveJArgsFrom grab release 0 joints

/-- `" a1 a2 ... an"`: how the arguments appear in the command line. -/
def joinArgs : List String → String
  | [] => ""
  | a :: rest => " " ++ a ++ joinArgs rest

/-! ## `set_profile` (source lines 162–224) -/

/-- `command = 'Profile k'` followed by `command += ' ' + str(value)` over
the dict entries, then `command += '\n'`. -/
def profile_command (verb : String) (entries : List (String × Int)) : String :=
  entries.foldl (fun command kv => command ++ " " ++ toString kv.2) verb ++ "\n"

/-- One profile-set block of `set_profile`: connect, send the command, and
handle the outcome with the shared `try`/`except`/`else` idiom. -/
def profile_cycle (t : Transport) (st : RobotState) (command : String) :
    Except PyExn RobotState :=
  let step := run_cycle (t st.cycles)
  let st1 := applyStep st step command
  match step.result with
  | .error e => .error e
  | .ok _ => .ok st1

/-- `set_profile`: a 1-entry dict (the default argument) sends `Profile 1`
and `Profile 2` built from the two stored default motion profiles; an
8-entry dict sends `Profile 3` built from the given dict; any other size
raises the generic `Exception` before touching the network.  (In the source
the `IndexError` for a missing default profile would surface only after the
socket connect; no claim depends on that corner.) -/
def set_profile (t : Transport) (st : RobotState) (profile_dict : List (String × Int)) :
    Except PyExn (Option Unit × RobotState) :=
  if profile_dict.length == 1 then do
    let mp0 ← list_index st.motion_profile 0
    let st1 ← profile_cycle t st (profile_command "Profile 1" mp0)
    let mp1 ← list_index st.motion_profile 1
    let st2 ← profile_cycle t st1 (profile_command "Profile 2" mp1)
    return (none, st2)
  else if profile_dict.length == 8 then do
    let st1 ← profile_cycle t st (profile_command "Profile 3" profile_dict)
    return (none, st1)
  else
    .error (.exception ("Motion profile takes 8 arguments, " ++ toString profile_dict.length ++ " where given"))

/-! ## Canned move sequences (source lines 315–456) -/

/-- The per-command loop shared verbatim by `pick_plate_ot2`,
`drop_plate_ot2`, `pick_plate_from_rack` and `drop_complete_plate`: for each
command connect, send, receive; a caught `socket.error` is only logged and
the loop continues with the remaining commands. -/
def run_move_loop (t : Transport) (cmds : List String) (st : RobotState) :
    Except PyExn RobotState :=
  match cmds with
  | [] => .ok st
  | cmd :: rest =>
    let step := run_cycle (t st.cycles)
    let st1 := applyStep st step cmd
    match step.result with
    | .error e => .error e
    | .ok _ => run_move_loop t rest st1

/-- Modelled from the spec: the `pick_up_commands` list literal in
`pick_plate_ot2` is elided in the source snapshot (line 335 ends in
`......` after its first two elements); the spec documents the sequence
front → above → approach → pick(grip) → above(grip) → front(grip), i.e. the
six command variables in the order they are built. -/
def pick_up_commands (move_front above_plate approach_plate pick_up_plate
    above_with_plate front_with_plate : String) : List String :=
  [move_front, above_plate, approach_plate, pick_up_plate, above_with_plate, front_with_plate]

/-- `pick_plate_ot2`. -/
def pick_plate_ot2 (t : Transport) (st : RobotState) (ot2_ID : Int) (profile : Nat) :
    Except PyExn (Option Unit × RobotState) := do
  let slow := if profile == 3 then 3 else 1
  let fast := if profile == 3 then 3 else 2
  let move_front ← set_move_command st ("OT2_" ++ toString ot2_ID ++ "_front") fast false false
  let above_plate ← set_move_command st ("OT2_" ++ toString ot2_ID ++ "_above_plate") fast false false
  let approach_plate ← set_move_command st ("OT2_" ++ toString ot2_ID ++ "_pick_plate") fast false false
  let pick_up_plate ← set_move_command st ("OT2_" ++ toString ot2_ID ++ "_pick_plate") slow true false
  let above_with_plate ← set_move_command st ("OT2_" ++ toString ot2_ID ++ "_above_plate") slow true false
  let front_with_plate ← set_move_command st ("OT2_" ++ toString ot2_ID ++ "_front") slow true false
  let st1 ← run_move_loop t
    (pick_up_commands move_front above_plate approach_plate pick_up_plate above_with_plate front_with_plate) st
  return (none, st1)

/-- `drop_plate_ot2`. -/
def drop_plate_ot2 (t : Transport) (st : RobotState) (ot2_ID : Int) (profile : Nat) :
    Except PyExn (Option Unit × RobotState) := do
  let slow := if profile == 3 then 3 else 1
  let fast := if profile == 3 then 3 else 2
  let front_with_plate ← set_move_command st ("OT2_" ++ toString ot2_ID ++ "_front") slow true false
  let above_with_plate ← set_move_command st ("OT2_" ++ toString ot2_ID ++ "_above_plate") slow true false
  let approach_with_plate ← set_move_command st ("OT2_" ++ toString ot2_ID ++ "_pick_plate") slow true false
  let drop_plate ← set_move_command st ("OT2_" ++ toString ot2_ID ++ "_pick_plate") slow false true
  let above_plate ← set_move_command st ("OT2_" ++ toString ot2_ID ++ "_above_plate") fast false false
  let front_plate ← set_move_command st ("OT2_" ++ toString ot2_ID ++ "_front") fast false false
  let st1 ← run_move_loop t
    [front_with_plate, above_with_plate, approach_with_plate, drop_plate, above_plate, front_plate] st
  return (none, st1)

/-- `pick_plate_from_rack`. -/
def pick_plate_from_rack (t : Transport) (st : RobotState) (ot2_ID : Int) (profile : Nat) :
    Except PyExn (Option Unit × RobotState) := do
  let slow := if profile == 3 then 3 else 1
  let fast := if profile == 3 then 3 else 2
  let approach_plate_rack ← set_move_command st ("OT2_" ++ toString ot2_ID ++ "_approach_plate_rack") fast false false
  let front_rack ← set_move_command st ("OT2_" ++ toString ot2_ID ++ "_front_plate_rack") slow false false
  let plate_rack ← set_move_command st ("OT2_" ++ toString ot2_ID ++ "_plate_rack") slow false false
  let pick_plate ← set_move_command st ("OT2_" ++ toString ot2_ID ++ "_plate_rack") slow true false
  let front_with_plate ← set_move_command st ("OT2_" ++ toString ot2_ID ++ "_front_plate_rack") slow true false
  let approach_rack_back ← set_move_command st ("OT2_" ++ toString ot2_ID ++ "_approach_plate_rack") slow true false
  let st1 ← run_move_loop t
    [approach_plate_rack, front_rack, plate_rack, pick_plate, front_with_plate, approach_rack_back] st
  return (none, st1)

/-- `drop_complete_plate`. -/
def drop_complete_plate (t : Transport) (st : RobotState) (profile : Nat) :
    Except PyExn (Option Unit × RobotState) := do
  let slow := if profile == 3 then 3 else 1
  let completed_plate_above ← set_move_command st "Completed_plate_above" slow true false
  let drop_with_plate ← set_move_command st "Completed_plate" slow true false
  let drop_plate ← set_move_command st "Completed_plate" slow false true
  let completed_plate ← set_move_command st "Completed_plate_above" slow false false
  let st1 ← run_move_loop t
    [completed_plate_above, drop_with_plate, drop_plate, completed_plate] st
  return (none, st1)

/-! ## `move_single`, `stop_robot` (source lines 261–278, 459–479) -/

/-- `move_single`: the socket is connected before the command is built, so a
`connect`-phase `socket.error` propagates before `set_move_command` can
raise; a failed socket creation only surfaces later, as the
`AttributeError` of `None.send`. -/
def move_single (t : Transport) (st : RobotState) (target_location : String)
    (profile : Nat) (grap release : Bool) : Except PyExn (Option Unit × RobotState) :=
  let o := t st.cycles
  if o = .connectFail then .error .socketError
  else
    match set_move_command st target_location profile grap release with
    | .error e => .error e
    | .ok command =>
      let step := run_cycle o
      let st1 := applyStep st step command
      match step.result with
      | .error e => .error e
      | .ok _ => .ok (none, st1)

/-- `stop_robot`: one `halt\n` cycle. -/
def stop_robot (t : Transport) (st : RobotState) :
    Except PyExn (Option Unit × RobotState) :=
  let step := run_cycle (t st.cycles)
  let st1 := applyStep st step "halt\n"
  match step.result with
  | .error e => .error e
  | .ok _ => .ok (none, st1)

/-! ## `locate_robot`, `teach_location` (source lines 547–593) -/

/-- `locate_robot`: sends `wherej\n` and parses the reply with
`list(map(int, location.split(" ")))`.  `coordinate_list` is assigned only
inside the `try`; when `send`/`recv` raises `socket.error` the `except`
branch merely logs, and the final `return coordinate_list` raises
`NameError` because the variable was never bound.  A `ValueError` from
`int(...)` is not a `socket.error` and propagates. -/
def locate_robot (t : Transport) (st : RobotState) :
    Except PyExn (List Int × RobotState) :=
  let step := run_cycle (t st.cycles)
  let st1 := applyStep st step "wherej\n"
  match step.result with
  | .error e => .error e
  | .ok none => .error .nameError
  | .ok (some location) =>
    match parse_coordinates (pySplitSpace location) with
    | .error e => .error e
    | .ok coordinate_list => .ok (coordinate_list, st1)

/-- In the source the branch condition of `teach_location` reads
`location.lower == "homeall"` (and likewise for the three other global
names): `location.lower` without parentheses is the bound method object,
and a method object never equals a `str`, so every one of these comparisons
evaluates to `False` regardless of `location`. -/
def lower_method_eq (_location _s : String) : Bool := false

/-- Overwriting a location entry in place:
`for count, loc in enumerate(d[key]): d[key][count] = current[count]`.
Entries are replaced left to right; when `current` is shorter the loop dies
with `IndexError` after replacing the first `current.length` entries. -/
def overwrite_entries (old current : List Int) : List Int × Option PyExn :=
  (current.take old.length ++ old.drop current.length,
   if old.length ≤ current.length then none else some .indexError)

/-- The body of the `try` block of `teach_location`, returning the state as
mutated so far together with the exception it dies with, if any (every such
exception is caught by the enclosing `except Exception`).  The branch
structure mirrors the source `if`/`elif`/`else`; matching on `robot_id`
first is equivalent because the first condition requires `robot_id == None`
and the `elif` requires the opposite.  In the first branch `key_name` is
never assigned, so the loop that follows the `if`/`elif`/`else` raises
`NameError` after the per-name loop has already run; the `elif` branch
leaves `key_name` unassigned (hence `NameError`) when no sub-key matches. -/
def teach_body (st : RobotState) (location : String) (robot_id : Option Int)
    (current_location : List Int) : RobotState × Option PyExn :=
  match robot_id with
  | none =>
    if lower_method_eq location "homeall" || lower_method_eq location "homearm" ||
       lower_method_eq location "mobile_robot" || lower_method_eq location "trash" then
      match dict_get st.location_dictionary location with
      | none => (st, some .keyError)
      | some entry =>
        let res := overwrite_entries entry current_location
        let st1 := { st with location_dictionary := dict_set st.location_dictionary location res.1 }
        match res.2 with
        | some e => (st1, some e)
        | none => (st1, some .nameError)
    else
      (st, some (.exception "Please enter a valid location name!!! Format: location: str, robot_id:int = None "))
  | some rid =>
    let key_name : Option String :=
      if pyUpper location == "FRONT" then some ("OT2_" ++ toString rid ++ "_front")
      else if pyUpper location == "ABOVE_PLATE" then some ("OT2_" ++ toString rid ++ "_above_plate")
      else if pyUpper location == "PICK_PLATE" then some ("OT2_" ++ toString rid ++ "_pick_plate")
      else if pyUpper location == "PLATE_RACK" then some ("OT2_" ++ toString rid ++ "_plate_rack")
      else none
    match key_name with
    | none => (st, some .nameError)
    | some key =>
      match dict_get st.location_dictionary key with
      | none => (st, some .keyError)
      | some entry =>
        let res := overwrite_entries entry current_location
        ({ st with location_dictionary := dict_set st.location_dictionary key res.1 }, res.2)

/-- `teach_location`: `locate_robot` runs before the `try`, so its
exceptions propagate; everything inside the `try` is caught by
`except Exception as err: self.logger.error(err)` and the call returns
`None` with whatever partial mutation the body performed. -/
def teach_location (t : Transport) (st : RobotState) (location : String)
    (robot_id : Option Int) : Except PyExn (Option Unit × RobotState) :=
  match locate_robot t st with
  | .error e => .error e
  | .ok (current_location, st1) =>
    let body := teach_body st1 location robot_id current_location
    .ok (none, body.1)

/-! ## `program_robot_target` (source lines 482–514) -/

/-- `program_robot_target`: dispatches on `job.upper()`.  There is no
`else` branch in the source, so an unrecognized job name falls off the end
of the function, raising nothing and issuing no command. -/
def program_robot_target (t : Transport) (st : RobotState) (job : String)
    (robot_ID_list : List Int) : Except PyExn (Option Unit × RobotState) :=
  if pyUpper job == "TRANSFER" then do
    let id0 ← list_index robot_ID_list 0
    let id1 ← list_index robot_ID_list 1
    let r1 ← move_single t st "HomeALL" 2 false false
    let r2 ← pick_plate_ot2 t r1.2 id0 0
    let r3 ← drop_plate_ot2 t r2.2 id1 0
    return (none, r3.2)
  else if pyUpper job == "FULL_TRANSFER" then do
    let r1 ← move_single t st "HomeALL" 2 false false
    let r2 ← pick_plate_from_rack t r1.2 1 0
    let r3 ← drop_plate_ot2 t r2.2 1 0
    let r4 ← pick_plate_ot2 t r3.2 1 0
    let r5 ← drop_plate_ot2 t r4.2 2 0
    let r6 ← pick_plate_ot2 t r5.2 2 0
    let r7 ← drop_plate_ot2 t r6.2 3 0
    let r8 ← pick_plate_ot2 t r7.2 3 0
    let r9 ← drop_complete_plate t r8.2 0
    return (none, r9.2)
  else
    .ok (none, st)

/-! ## Sample data for concrete evaluations -/

/-- A transport on which every cycle succeeds with reply `"0"`. -/
def allReply : Transport := fun _ => .reply "0"

/-- A transport on which every `send` raises `socket.error`. -/
def allSendFail : Transport := fun _ => .sendFail

/-- First default motion profile (shape of the JSON config: 8 parameters). -/
def sampleMP0 : List (String × Int) :=
  [("speed", 50), ("speed2", 0), ("acceleration", 100), ("deceleration", 100),
   ("acceleration_ramp", 1), ("deceleration_ramp", 1), ("in_range", 1), ("straight", 0)]

/-- Second default motion profile. -/
def sampleMP1 : List (String × Int) :=
  [("speed", 80), ("speed2", 0), ("acceleration", 100), ("deceleration", 100),
   ("acceleration_ramp", 1), ("deceleration_ramp", 1), ("in_range", 1), ("straight", 0)]

/-- A sample robot state with the locations the claims exercise. -/
def sampleState : RobotState :=
  { location_dictionary :=
      [("HomeALL", [1, 2, 3, 4, 5, 6]),
       ("OT2_1_front", [10, 20, 30, 40, 50, 60]),
       ("OT2_1_above_plate", [11, 21, 31, 41, 51, 61]),
       ("OT2_1_pick_plate", [12, 22, 32, 42, 52, 62])]
    motion_profile := [sampleMP0, sampleMP1]
    sent := []
    sockets_opened := 0
    sockets_closed := 0
    cycles := 0 }

end PF400

namespace PF400

/-! ## Structural lemmas about the `MoveJ` argument loop -/

theorem move_loop_eq (grab release : Bool) (joints : List Int) :
    ∀ (count : Nat) (acc : String),
    move_loop grab release count joints acc =
      acc ++ joinArgs (moveJArgsFrom grab release count joints) := by
  induction joints with
  | nil =>
    intro count acc
    simp [move_loop, moveJArgsFrom, joinArgs, String.append_empty]
  | cons location rest ih =>
    intro count acc
    simp only [move_loop, moveJArgsFrom, joinArgs, moveJArg]
    cases hg : grab == true && count == 4 with
    | true => simp [hg, ih, String.append_assoc]
    | false =>
      cases hr : release == true && count == 4 with
      | true => simp [hg, hr, ih, String.append_assoc]
      | false => simp [hg, hr, ih, String.append_assoc]

theorem moveJArgsFrom_length (grab release : Bool) (joints : List Int) :
    ∀ count, (moveJArgsFrom grab release count joints).length = joints.length := by
  induction joints with
  | nil => intro count; rfl
  | cons location rest ih => intro count; simp [moveJArgsFrom, ih]

theorem moveJArgsFrom_getElem (grab release : Bool) (joints : List Int) :
    ∀ (count i : Nat),
    (moveJArgsFrom grab release count joints)[i]? =
      (joints[i]?).map (moveJArg grab release (count + i)) := by
  induction joints with
  | nil => intro count i; simp [moveJArgsFrom]
  | cons location rest ih =>
    intro count i
    cases i with
    | zero => simp [moveJArgsFrom]
    | succ j =>
      simp only [moveJArgsFrom, List.getElem?_cons_succ, ih (count + 1) j]
      have : count + 1 + j = count + (j + 1) := by omega
      rw [this]

theorem moveJArg_of_ne (grab release : Bool) (i : Nat) (hi : i ≠ 4) (location : Int) :
    moveJArg grab release i location = toString location := by
  simp [moveJArg, Bool.and_eq_true, beq_iff_eq, hi]

/-! ## Helper lemmas on the error branches -/

theorem set_move_command_bad_profile (st : RobotState) (robot_location : String)
    (profile : Nat) (grab release : Bool) (hp : ¬(profile = 1 ∨ profile = 2 ∨ profile = 3)) :
    set_move_command st robot_location profile grab release =
      .error (.exception "Please enter a valid motion profiile! 1 for slower movement, 2 for faster movement profile, 3 for modified profile") := by
  push_neg at hp
  simp [set_move_command, hp.1, hp.2.1, hp.2.2]

theorem set_profile_bad_count (t : Transport) (st : RobotState)
    (profile_dict : List (String × Int))
    (h1 : profile_dict.length ≠ 1) (h8 : profile_dict.length ≠ 8) :
    set_profile t st profile_dict =
      .error (.exception ("Motion profile takes 8 arguments, " ++ toString profile_dict.length ++ " where given")) := by
  simp [set_profile, h1, h8]

/-- C1: for every location name present in the location table and every
profile in {1, 2, 3}, `set_move_command` returns `MoveJ <profile>` followed
by exactly one argument per joint-angle entry of the location; with `grab`
(or `release`) set, the override replaces only the argument at gripper index
4, every argument at another index being the location's joint value
unchanged (`120.0` when `grab` is set, else `127.0`). -/
theorem set_move_command_arg_shape (st : RobotState) (robot_location : String)
    (joints : List Int) (profile : Nat) (grab release : Bool)
    (hloc : dict_get st.location_dictionary robot_location = some joints)
    (hp : profile = 1 ∨ profile = 2 ∨ profile = 3) :
    set_move_command st robot_location profile grab release =
      .ok ("MoveJ " ++ toString profile ++ joinArgs (moveJArgs grab release joints) ++ "\n")
    ∧ (moveJArgs grab release joints).length = joints.length
    ∧ (∀ i, i ≠ 4 → (moveJArgs grab release joints)[i]? = (joints[i]?).map toString)
    ∧ ((grab = true ∨ release = true) →
        (moveJArgs grab release joints)[4]? =
          (joints[4]?).map (fun _ => if grab then "120.0" else "127.0")) := by
  refine ⟨?_, moveJArgsFrom_length grab release joints 0, ?_, ?_⟩
  · rcases hp with hp | hp | hp <;> subst hp <;>
      (simp [set_move_command, hloc, moveJArgs, move_loop_eq, String.append_assoc]; rfl)
  · intro i hi
    rw [moveJArgs, moveJArgsFrom_getElem grab release joints 0 i, Nat.zero_add]
    cases h : joints[i]? with
    | none => rfl
    | some l => simp [moveJArg_of_ne grab release i hi]
  · intro hgr
    rw [moveJArgs, moveJArgsFrom_getElem grab release joints 0 4]
    cases h : joints[4]? with
    | none => rfl
    | some l =>
      rcases hgr with hg | hr
      · subst hg; simp [moveJArg]
      · subst hr
        cases grab with
        | true => simp [moveJArg]
        | false => simp [moveJArg]

theorem set_move_command_arg_shape_witness :
    dict_get sampleState.location_dictionary "OT2_1_front" = some [10, 20, 30, 40, 50, 60] ∧
    set_move_command sampleState "OT2_1_front" 1 true false =
      .ok ("MoveJ " ++ toString 1 ++ joinArgs (moveJArgs true false [10, 20, 30, 40, 50, 60]) ++ "\n") :=
  ⟨rfl,
   (set_move_command_arg_shape sampleState "OT2_1_front" [10, 20, 30, 40, 50, 60] 1 true false
      rfl (Or.inl rfl)).1⟩

/-- C9: when `set_move_command` is called with both `grab = True` and
`release = True`, the `grab` test is evaluated first in the loop, so the
command is identical to the `grab`-only command and the gripper argument at
index 4 is the grip value `120.0`, not the release value `127.0`. -/
theorem set_move_command_grab_precedence (st : RobotState) (robot_location : String)
    (profile : Nat) (joints : List Int) :
    set_move_command st robot_location profile true true =
      set_move_command st robot_location profile true false
    ∧ (moveJArgs true true joints)[4]? = (joints[4]?).map (fun _ => "120.0") := by
  constructor
  · have hloop : ∀ (js : List Int) (count : Nat) (acc : String),
        move_loop true true count js acc = move_loop true false count js acc := by
      intro js
      induction js with
      | nil => intro count acc; rfl
      | cons location rest ih =>
        intro count acc
        cases hc : count == 4 with
        | true => simp [move_loop, hc, ih]
        | false => simp [move_loop, hc, ih]
    unfold set_move_command
    cases dict_get st.location_dictionary robot_location with
    | none => simp
    | some js => simp [hloop]
  · rw [moveJArgs, moveJArgsFrom_getElem true true joints 0 4]
    cases h : joints[4]? with
    | none => rfl
    | some l => simp [moveJArg]

/-- C2: with a profile dictionary of exactly 1 entry `set_profile` issues
exactly the two commands `Profile 1` and `Profile 2` built from the stored
default motion profiles; with exactly 8 entries it issues exactly the one
command `Profile 3` built from the given dictionary; with any other entry
count it raises the configuration `Exception` before any network cycle, so
no command is issued. -/
theorem set_profile_commands (st : RobotState) (t : Transport)
    (profile_dict mp0 mp1 : List (String × Int))
    (hmp0 : list_index st.motion_profile 0 = .ok mp0)
    (hmp1 : list_index st.motion_profile 1 = .ok mp1)
    (ht : ∀ k, t k = .reply "0") :
    (profile_dict.length = 1 →
      (set_profile t st profile_dict).map (fun r => r.2.sent) =
        .ok (st.sent ++ [profile_command "Profile 1" mp0, profile_command "Profile 2" mp1]))
    ∧ (profile_dict.length = 8 →
      (set_profile t st profile_dict).map (fun r => r.2.sent) =
        .ok (st.sent ++ [profile_command "Profile 3" profile_dict]))
    ∧ (profile_dict.length ≠ 1 → profile_dict.length ≠ 8 →
      set_profile t st profile_dict =
        .error (.exception ("Motion profile takes 8 arguments, " ++ toString profile_dict.length ++ " where given"))) := by
  refine ⟨?_, ?_, set_profile_bad_count t st profile_dict⟩
  · intro h1
    simp [set_profile, h1, hmp0, hmp1, profile_cycle, run_cycle, applyStep, ht,
      Except.map, Bind.bind, Except.bind, pure, Except.pure, List.append_assoc]
  · intro h8
    have hne : profile_dict.length ≠ 1 := by omega
    simp [set_profile, h8, hne, profile_cycle, run_cycle, applyStep, ht,
      Except.map, Bind.bind, Except.bind, pure, Except.pure, List.append_assoc]

theorem set_profile_commands_witness :
    (set_profile allReply sampleState [("0", 0)]).map (fun r => r.2.sent) =
      .ok ([] ++ [profile_command "Profile 1" sampleMP0, profile_command "Profile 2" sampleMP1])
    ∧ (set_profile allReply sampleState sampleMP0).map (fun r => r.2.sent) =
      .ok ([] ++ [profile_command "Profile 3" sampleMP0])
    ∧ set_profile allReply sampleState [("a", 1), ("b", 2)] =
      .error (.exception ("Motion profile takes 8 arguments, " ++ toString 2 ++ " where given")) :=
  ⟨(set_profile_commands sampleState allReply [("0", 0)] sampleMP0 sampleMP1 rfl rfl
      (fun _ => rfl)).1 rfl,
   (set_profile_commands sampleState allReply sampleMP0 sampleMP0 sampleMP1 rfl rfl
      (fun _ => rfl)).2.1 rfl,
   (set_profile_commands sampleState allReply [("a", 1), ("b", 2)] sampleMP0 sampleMP1 rfl rfl
      (fun _ => rfl)).2.2 (by decide) (by decide)⟩

/-- C3 (the `pick_up_commands` list literal itself is modelled from the
spec, see `pick_up_commands`): with `ot2_ID = 1` and the default profile,
`pick_plate_ot2` issues exactly six move commands, in this order: front,
above-plate, approach (the pick-plate location), pick-plate with grip
override, above-plate with grip override, front with grip override — the
first three on the fast profile 2, the gripping three on the slow
profile 1. -/
theorem pick_plate_ot2_sequence (st : RobotState) (t : Transport)
    (c1 c2 c3 c4 c5 c6 : String)
    (h1 : set_move_command st "OT2_1_front" 2 false false = .ok c1)
    (h2 : set_move_command st "OT2_1_above_plate" 2 false false = .ok c2)
    (h3 : set_move_command st "OT2_1_pick_plate" 2 false false = .ok c3)
    (h4 : set_move_command st "OT2_1_pick_plate" 1 true false = .ok c4)
    (h5 : set_move_command st "OT2_1_above_plate" 1 true false = .ok c5)
    (h6 : set_move_command st "OT2_1_front" 1 true false = .ok c6)
    (ht : ∀ k, t k = .reply "0") :
    (pick_plate_ot2 t st 1 0).map (fun r => r.2.sent) =
      .ok (st.sent ++ [c1, c2, c3, c4, c5, c6]) := by
  have e1 : ("OT2_" ++ toString (1 : Int) ++ "_front") = "OT2_1_front" := rfl
  have e2 : ("OT2_" ++ toString (1 : Int) ++ "_above_plate") = "OT2_1_above_plate" := rfl
  have e3 : ("OT2_" ++ toString (1 : Int) ++ "_pick_plate") = "OT2_1_pick_plate" := rfl
  simp [pick_plate_ot2, e1, e2, e3, h1, h2, h3, h4, h5, h6, pick_up_commands,
    run_move_loop, run_cycle, applyStep, ht, Except.map, Bind.bind, Except.bind,
    pure, Except.pure, List.append_assoc]

theorem pick_plate_ot2_sequence_witness :
    (pick_plate_ot2 allReply sampleState 1 0).map (fun r => r.2.sent) =
      .ok ([] ++ ["MoveJ 2 10 20 30 40 50 60\n", "MoveJ 2 11 21 31 41 51 61\n",
        "MoveJ 2 12 22 32 42 52 62\n", "MoveJ 1 12 22 32 42 120.0 62\n",
        "MoveJ 1 11 21 31 41 120.0 61\n", "MoveJ 1 10 20 30 40 120.0 60\n"]) :=
  pick_plate_ot2_sequence sampleState allReply
    "MoveJ 2 10 20 30 40 50 60\n" "MoveJ 2 11 21 31 41 51 61\n"
    "MoveJ 2 12 22 32 42 52 62\n" "MoveJ 1 12 22 32 42 120.0 62\n"
    "MoveJ 1 11 21 31 41 120.0 61\n" "MoveJ 1 10 20 30 40 120.0 60\n"
    rfl rfl rfl rfl rfl rfl (fun _ => rfl)

/-- C4 (code bug): calling `teach_location` with location `"HomeALL"` and no
robot id does NOT overwrite the `HomeALL` entry.  The branch condition in
the source compares the bound method object `location.lower` (missing the
call parentheses) against the string `"homeall"`, which is always false, so
the call falls into the `raise` branch; the `Exception` is caught and
logged, and the table keeps its old values.  Here the robot reports
coordinates `[5, 6, 7, 8, 9, 10]`, yet `HomeALL` still maps to its old
entry `[1, 2, 3, 4, 5, 6]` afterwards, and the call returns `None`. -/
theorem teach_location_homeall_unchanged :
    (teach_location (fun _ => .reply "5 6 7 8 9 10") sampleState "HomeALL" none).map
      (fun r => (r.1, dict_get r.2.location_dictionary "HomeALL")) =
      .ok (none, some [1, 2, 3, 4, 5, 6]) := rfl

/-- C8: when the robot's reply to the `wherej` position query is the string
`"5 6 7 8 9 10"`, `locate_robot` returns the integer list
`[5, 6, 7, 8, 9, 10]`, whatever the prior client state. -/
theorem locate_robot_round_trip (st : RobotState) :
    (locate_robot (fun _ => .reply "5 6 7 8 9 10") st).map Prod.fst =
      .ok [5, 6, 7, 8, 9, 10] := rfl

/-- C10: when the transport `send` or `recv` fails inside `locate_robot`,
the `except socket.error` branch only logs, so `coordinate_list` is never
bound and the `return coordinate_list` statement raises an unhandled
`NameError`: the call yields no coordinate list at all. -/
theorem locate_robot_transport_failure_nameerror (st : RobotState) :
    locate_robot (fun _ => .sendFail) st = .error .nameError ∧
    locate_robot (fun _ => .recvFail) st = .error .nameError :=
  ⟨rfl, rfl⟩

/-- C5 counterexample: a transport failure does not yield a `TransportError`
result.  With every `send` failing, `move_single` returns `.ok none` — the
very same `None` the caller gets on full success — so the caller receives no
error value of any kind; the failure is only logged.  (And `locate_robot`,
also command-issuing, raises an unhandled `NameError` instead, see the C10
theorem.) -/
theorem move_single_sendfail_no_error_result :
    (move_single allSendFail sampleState "HomeALL" 2 false false).map Prod.fst = .ok none
    ∧ (move_single allReply sampleState "HomeALL" 2 false false).map Prod.fst = .ok none :=
  ⟨rfl, rfl⟩

/-- C5 as amended: when `send` raises `socket.error` during `move_single`,
the exception is caught and only logged: the call returns `None` (not a
`TransportError` result), nothing is sent, and the location table is exactly
the same after the call as before it. -/
theorem move_single_transport_failure (st : RobotState) (t : Transport)
    (target_location : String) (profile : Nat) (command : String)
    (hcmd : set_move_command st target_location profile false false = .ok command)
    (hfail : t st.cycles = .sendFail) :
    (move_single t st target_location profile false false).map
      (fun r => (r.1, r.2.location_dictionary, r.2.sent)) =
      .ok (none, st.location_dictionary, st.sent) := by
  simp [move_single, hfail, hcmd, run_cycle, applyStep, Except.map]

theorem move_single_transport_failure_witness :
    (move_single allSendFail sampleState "HomeALL" 2 false false).map
      (fun r => (r.1, r.2.location_dictionary, r.2.sent)) =
      .ok (none, sampleState.location_dictionary, sampleState.sent) :=
  move_single_transport_failure sampleState allSendFail "HomeALL" 2
    "MoveJ 2 1 2 3 4 5 6\n" rfl rfl

/-- C6 counterexample: the per-command socket is NOT closed on the failure
path.  `disconnect_robot` sits in the `else` branch of the
`try`/`except`/`else`, so when `send` fails in `stop_robot` the operation
returns with one socket opened and none closed. -/
theorem stop_robot_socket_left_open :
    (stop_robot allSendFail sampleState).map
      (fun r => (r.2.sockets_opened, r.2.sockets_closed)) = .ok (1, 0) := rfl

/-- C6 as amended: the per-command socket is closed on the success path
(command sent, reply received), but when `send` raises `socket.error` the
`except` branch returns without calling `close()`, leaving the socket
open. -/
theorem stop_robot_close_paths (st : RobotState) (t : Transport) :
    (∀ m, t st.cycles = .reply m →
      (stop_robot t st).map (fun r => (r.2.sockets_opened, r.2.sockets_closed)) =
        .ok (st.sockets_opened + 1, st.sockets_closed + 1))
    ∧ (t st.cycles = .sendFail →
      (stop_robot t st).map (fun r => (r.2.sockets_opened, r.2.sockets_closed)) =
        .ok (st.sockets_opened + 1, st.sockets_closed)) := by
  constructor
  · intro m hm
    simp [stop_robot, hm, run_cycle, applyStep, Except.map]
  · intro hm
    simp [stop_robot, hm, run_cycle, applyStep, Except.map]

theorem stop_robot_close_paths_witness :
    (stop_robot allReply sampleState).map
      (fun r => (r.2.sockets_opened, r.2.sockets_closed)) = .ok (0 + 1, 0 + 1)
    ∧ (stop_robot allSendFail sampleState).map
      (fun r => (r.2.sockets_opened, r.2.sockets_closed)) = .ok (0 + 1, 0) :=
  ⟨(stop_robot_close_paths sampleState allReply).1 "0" rfl,
   (stop_robot_close_paths sampleState allSendFail).2 rfl⟩

/-- C7 counterexample: `program_robot_target` with an unrecognized job name
raises no error at all.  The `if`/`elif` over `job.upper()` has no `else`
branch, so the call with job `"JUMP"` simply returns `None`, issues no
command, and leaves the state untouched. -/
theorem program_robot_target_unknown_job_silent :
    program_robot_target allReply sampleState "JUMP" [0, 0] = .ok (none, sampleState) := rfl

/-- C7 as amended: `set_profile` with an invalid entry count and
`set_move_command` with an invalid profile do raise a generic `Exception`
to the caller; but `teach_location` with an unrecognized location name
catches its own error and only logs it, returning `None` with the table
untouched, and `program_robot_target` with an unrecognized job name raises
nothing and does nothing. -/
theorem invalid_input_error_behaviour (st : RobotState) (t : Transport)
    (profile_dict : List (String × Int)) (robot_location location job : String)
    (profile : Nat) (grab release : Bool) (ids : List Int) :
    (profile_dict.length ≠ 1 → profile_dict.length ≠ 8 →
      set_profile t st profile_dict =
        .error (.exception ("Motion profile takes 8 arguments, " ++ toString profile_dict.length ++ " where given")))
    ∧ (¬(profile = 1 ∨ profile = 2 ∨ profile = 3) →
      set_move_command st robot_location profile grab release =
        .error (.exception "Please enter a valid motion profiile! 1 for slower movement, 2 for faster movement profile, 3 for modified profile"))
    ∧ (∀ (rid : Int) (m : String) (coords : List Int),
      t st.cycles = .reply m →
      parse_coordinates (pySplitSpace m) = .ok coords →
      pyUpper location ≠ "FRONT" → pyUpper location ≠ "ABOVE_PLATE" →
      pyUpper location ≠ "PICK_PLATE" → pyUpper location ≠ "PLATE_RACK" →
      (teach_location t st location (some rid)).map
        (fun r => (r.1, r.2.location_dictionary)) = .ok (none, st.location_dictionary))
    ∧ (pyUpper job ≠ "TRANSFER" → pyUpper job ≠ "FULL_TRANSFER" →
      program_robot_target t st job ids = .ok (none, st)) := by
  refine ⟨set_profile_bad_count t st profile_dict,
    set_move_command_bad_profile st robot_location profile grab release, ?_, ?_⟩
  · intro rid m coords hm hcoords hf ha hp hr
    simp [teach_location, locate_robot, run_cycle, applyStep, hm, hcoords,
      teach_body, hf, ha, hp, hr, Except.map]
  · intro hj1 hj2
    simp [program_robot_target, hj1, hj2]

theorem invalid_input_error_behaviour_witness :
    set_profile (fun _ => .reply "5 6 7 8 9 10") sampleState [] =
      .error (.exception ("Motion profile takes 8 arguments, " ++ toString (0 : Nat) ++ " where given"))
    ∧ set_move_command sampleState "HomeALL" 5 false false =
      .error (.exception "Please enter a valid motion profiile! 1 for slower movement, 2 for faster movement profile, 3 for modified profile")
    ∧ (teach_location (fun _ => .reply "5 6 7 8 9 10") sampleState "FOO" (some 1)).map
        (fun r => (r.1, r.2.location_dictionary)) = .ok (none, sampleState.location_dictionary)
    ∧ program_robot_target (fun _ => .reply "5 6 7 8 9 10") sampleState "JUMP" [0, 0] =
      .ok (none, sampleState) := by
  have h := invalid_input_error_behaviour sampleState (fun _ => .reply "5 6 7 8 9 10")
    [] "HomeALL" "FOO" "JUMP" 5 false false [0, 0]
  exact ⟨h.1 (by decide) (by decide), h.2.1 (by decide),
    h.2.2.1 1 "5 6 7 8 9 10" [5, 6, 7, 8, 9, 10] rfl rfl
      (by decide) (by decide) (by decide) (by decide),
    h.2.2.2 (by decide) (by decide)⟩
